import Mathlib

/-!
Shallow embedding of the three Dataplex data-scan tools of the
genai-toolbox repository fragment:

* `bigquery-get-data-scan-info` (internal/tools/bigquery/bigquerygetdatascaninfo)
* `bigquery-list-data-scans`    (src/unnamed/part_000, Go package bigquerydataprofile)
* `bigquery-data-profile`       (internal/tools/bigquery/bigquerydataprofile)

Each tool's `Invoke` is embedded as a pure function from the source
configuration, an environment (the external behaviours: bearer-token
parsing, the per-token client creator, the remote API's answers) and the
validated parameters, to a result (`Except` for the Go `(any, error)`
pair) together with a trace recording the observable interactions:
whether the client factory was reached and which remote requests were
issued on which client.
-/

namespace GenaiToolbox

/-- Model of `*dataplexpb.DataProfileResult` (external proto message,
kept abstract as a single payload field). -/
structure DataProfileResult where
  payload : String
deriving DecidableEq

/-- Model of `*dataplexpb.DataSource` (`GetResource()` reads `resource`). -/
structure DataSource where
  resource : String
deriving DecidableEq

/-- Model of `*dataplexpb.DataScan` as consumed by these tools:
`GetName`, `GetDisplayName`, `GetData().GetResource()`,
`GetDataProfileResult`, `GetState().String()` (kept as the enum's string
name) and `GetCreateTime().AsTime()` (kept as an epoch instant).
`uid` and `description` stand for the remaining response fields the
tools never read. -/
structure DataScan where
  name : String
  displayName : String
  uid : String
  description : String
  data : Option DataSource
  dataProfileResult : Option DataProfileResult
  state : String
  createTime : Int
deriving DecidableEq

/-- Nil-safe getter chain `resp.GetData().GetResource()`: a nil `Data`
yields the proto zero value `""`. -/
def DataScan.getDataResource (s : DataScan) : String :=
  match s.data with
  | some d => d.resource
  | none => ""

/-- The `compatibleSource` interface shared by the three tools, together
with the result of its `MakeDataplexDataScanClient()()` factory call:
the factory returns a client, a `DataplexClientCreator` and an error.
Clients are identified by abstract ids (`Nat`);
`clientCreator tok` models `dataplexClientCreator(tokenStr)` returning
either a fresh client or an error. `factoryErr` is the third component
of the factory's return value. -/
structure Source where
  bigQueryProject : String
  useClientAuthorization : Bool
  clientFromSource : Nat
  clientCreator : String → Except String Nat
  factoryErr : Option String

/-- The client-selection step shared verbatim by the three `Invoke`
bodies: when `UseClientAuthorization()` is true, parse the bearer token
and recreate the client from it (each failure wrapped with the message
the Go code uses); otherwise keep the client the source factory
returned. `parseBearer` is the outcome of
`accessToken.ParseBearerToken()`. -/
def authStep (src : Source) (parseBearer : Except String String) : Except String Nat :=
  if src.useClientAuthorization then
    match parseBearer with
    | Except.error e => Except.error ("error parsing access token: " ++ e)
    | Except.ok tokenStr =>
      match src.clientCreator tokenStr with
      | Except.error e => Except.error ("error creating client from OAuth access token: " ++ e)
      | Except.ok c => Except.ok c
  else
    Except.ok src.clientFromSource

/-- Go `fmt`'s `%q` on the quote-free project strings these tools print:
wrap in double quotes. -/
def goQuote (s : String) : String := "\"" ++ s ++ "\""

/-- A gRPC error as seen through `status.FromError`: whether the
conversion succeeds and the status message. -/
structure RpcError where
  fromStatus : Bool
  message : String
deriving DecidableEq

namespace BigqueryGetDataScanInfo

/-- Values of `dataplexpb.GetDataScanRequest_DataScanView` used here. -/
inductive DataScanView
  | unspecified
  | basic
  | full
deriving DecidableEq

/-- Model of `*dataplexpb.GetDataScanRequest`. -/
structure GetDataScanRequest where
  name : String
  view : DataScanView
deriving DecidableEq

/-- The tool's declared parameter schema: one required string `name`. -/
structure Params where
  name : String
deriving DecidableEq

/-- External behaviours `Invoke` consults: the bearer-token parse
outcome and the remote `GetDataScan` answer. -/
structure Env where
  parseBearer : Except String String
  getDataScan : Except RpcError DataScan

/-- Observable interactions of one `Invoke` run. -/
structure Trace where
  factoryCalled : Bool
  apiCalls : List (Nat × GetDataScanRequest)
deriving DecidableEq

/-- The tool's result object (`Response` in the Go file). -/
structure Response where
  dataScanName : String
  displayName : String
  dataSource : String
  result : Option DataProfileResult
deriving DecidableEq

/-- Projection of the successful `GetDataScan` response into `Response`. -/
def mkResponse (resp : DataScan) : Response :=
  { dataScanName := resp.name
    displayName := resp.displayName
    dataSource := resp.getDataResource
    result := resp.dataProfileResult }

/-- Error wrapping of a failed `GetDataScan` call. -/
def wrapGetError (project : String) (e : RpcError) : String :=
  if e.fromStatus then
    "failed to get data scan for project " ++ goQuote project ++ " with error: " ++ e.message
  else
    "failed to get data scan for project " ++ goQuote project

/-- Embedding of `Tool.Invoke` of `bigquery-get-data-scan-info`
(bigquerygetdatascaninfo.go lines 122-174): reject an empty `name`,
build the FULL-view request, call the client factory (its error return
is bound to `_` and discarded), run the client-authorization step, issue
`GetDataScan` once, and either wrap its error or project the response. -/
def Invoke (src : Source) (env : Env) (p : Params) :
    Except String Response × Trace :=
  if p.name = "" then
    (Except.error ("name is required."), { factoryCalled := false, apiCalls := [] })
  else
    let req : GetDataScanRequest := { name := p.name, view := DataScanView.full }
    match authStep src env.parseBearer with
    | Except.error e => (Except.error e, { factoryCalled := true, apiCalls := [] })
    | Except.ok client =>
      match env.getDataScan with
      | Except.error e =>
        (Except.error (wrapGetError src.bigQueryProject e),
         { factoryCalled := true, apiCalls := [(client, req)] })
      | Except.ok resp =>
        (Except.ok (mkResponse resp),
         { factoryCalled := true, apiCalls := [(client, req)] })

end BigqueryGetDataScanInfo

namespace BigqueryListDataScans

/-- Model of `*dataplexpb.ListDataScansRequest` as used here; `filter`
has the proto zero value `""` unless the code sets it. -/
structure ListDataScansRequest where
  parent : String
  orderBy : String
  pageSize : Int
  filter : String
deriving DecidableEq

/-- The Go conversion `int32(n)` on a host `int`: wrap into
`[-2^31, 2^31)`. -/
def toInt32 (n : Int) : Int := (n + 2 ^ 31) % 2 ^ 32 - 2 ^ 31

/-- The tool's declared parameter schema: `location` (string),
`project` (string, default `""`), `state` (string, default `""`),
`pageSize` (int, default 5). -/
structure Params where
  location : String
  project : String
  state : String
  pageSize : Int
deriving DecidableEq

/-- One item of the tool's response list. -/
structure DataScanItem where
  name : String
  createTime : Int
  state : String
deriving DecidableEq

/-- The tool's result object. -/
structure Response where
  dataScans : List DataScanItem
deriving DecidableEq

/-- One `DataScanItem` built from one yielded scan:
`GetName()`, `GetCreateTime().AsTime()`, `GetState().String()`. -/
def toItem (scan : DataScan) : DataScanItem :=
  { name := scan.name, createTime := scan.createTime, state := scan.state }

/-- External behaviours: bearer-token parsing, and the iterator that
`dataScanClient.ListDataScans` returns, modelled as the sequence of
`it.Next()` outcomes before the terminal `iterator.Done` (each element
either a scan or a non-Done error). -/
structure Env where
  parseBearer : Except String String
  scanStream : List (Except String DataScan)

/-- Observable interactions of one `Invoke` run; `nextCalls` counts the
`it.Next()` calls made. -/
structure Trace where
  factoryCalled : Bool
  apiCalls : List (Nat × ListDataScansRequest)
  nextCalls : Nat
deriving DecidableEq

/-- The `for { dataScan, err := it.Next(); ... }` loop: exhausting the
stream is `iterator.Done` (break with the accumulated items), an error
element aborts with `iterator.Next: <err>` and drops the accumulated
items, a scan element appends its `DataScanItem`. Also returns the
number of `Next` calls made (the Done- or error-yielding call included). -/
def drainLoop : List (Except String DataScan) → List DataScanItem →
    Except String (List DataScanItem) × Nat
  | [], acc => (Except.ok acc, 1)
  | Except.error e :: _, _ => (Except.error ("iterator.Next: " ++ e), 1)
  | Except.ok scan :: rest, acc =>
    let r := drainLoop rest (acc ++ [toItem scan])
    (r.1, r.2 + 1)

/-- The request the tool builds (part_000 lines 137-159): parent from
the project parameter — defaulted to the source's project when empty —
and the location parameter; fixed descending create-time order; the
`pageSize` parameter narrowed to `int32`; a state filter only when the
`state` parameter is non-empty. -/
def buildRequest (src : Source) (p : Params) : ListDataScansRequest :=
  let project := if p.project = "" then src.bigQueryProject else p.project
  { parent := "projects/" ++ project ++ "/locations/" ++ p.location
    orderBy := "create_time desc"
    pageSize := toInt32 p.pageSize
    filter := if p.state = "" then "" else "state=\"" ++ p.state ++ "\"" }

/-- Embedding of `Tool.Invoke` of `bigquery-list-data-scans` (part_000 lines
129-200): default the project, reject an empty `location`, build the
request, call the client factory (error return discarded into `_`), run
the client-authorization step, then drain the `ListDataScans` iterator. -/
def Invoke (src : Source) (env : Env) (p : Params) :
    Except String Response × Trace :=
  if p.location = "" then
    (Except.error ("location parameter is required"),
     { factoryCalled := false, apiCalls := [], nextCalls := 0 })
  else
    let req := buildRequest src p
    match authStep src env.parseBearer with
    | Except.error e =>
      (Except.error e, { factoryCalled := true, apiCalls := [], nextCalls := 0 })
    | Except.ok client =>
      match drainLoop env.scanStream [] with
      | (Except.error e, n) =>
        (Except.error e,
         { factoryCalled := true, apiCalls := [(client, req)], nextCalls := n })
      | (Except.ok items, n) =>
        (Except.ok { dataScans := items },
         { factoryCalled := true, apiCalls := [(client, req)], nextCalls := n })

end BigqueryListDataScans

namespace BigqueryDataProfile

/-- Modes of `dataplexpb.Trigger` used here. -/
inductive TriggerMode
  | onDemand
  | schedule (cron : String)
deriving DecidableEq

/-- Model of `dataplexpb.DataScan_ExecutionSpec`. -/
structure ExecutionSpec where
  trigger : TriggerMode
deriving DecidableEq

/-- Model of `dataplexpb.DataProfileSpec`; `SamplingPercent` is a `float64`
literal here, modelled as a rational. -/
structure DataProfileSpec where
  samplingPercent : Rat
deriving DecidableEq

/-- The `dataplexpb.DataScan` literal inside a create request. -/
structure DataScanSpec where
  displayName : String
  data : DataSource
  executionSpec : ExecutionSpec
  profileSpec : DataProfileSpec
deriving DecidableEq

/-- Model of `*dataplexpb.CreateDataScanRequest`. -/
structure CreateDataScanRequest where
  parent : String
  dataScanId : String
  dataScan : DataScanSpec
deriving DecidableEq

/-- The request literal of bigquerydataprofile.go lines 172-202: every
field is a constant written in the source. -/
def hardcodedRequest : CreateDataScanRequest :=
  { parent := "projects/autopush-cmek-test-project-1/locations/us-west1"
    dataScanId := "testscan1"
    dataScan :=
      { displayName := "TestScan"
        data := { resource := "//bigquery.googleapis.com/projects/autopush-cmek-test-project-1/datasets/TestDSUsWest1/tables/TestTabUsWest1" }
        executionSpec := { trigger := TriggerMode.onDemand }
        profileSpec := { samplingPercent := 10 } } }

/-- The tool's declared parameter schema is empty
(`parameters.Parameters{/** add parameters */}`); the validated values
`Invoke` receives are an arbitrary named-value list it never reads. -/
def ParamValues : Type := List (String × String)

/-- External behaviours: bearer-token parsing, the `CreateDataScan`
answer (an operation handle or an error) and the `op.Wait` answer. -/
structure Env where
  parseBearer : Except String String
  createDataScan : Except String Nat
  opWait : Except String DataScan

/-- Observable interactions of one `Invoke` run. -/
structure Trace where
  factoryCalled : Bool
  createCalls : List (Nat × CreateDataScanRequest)
  waitCalls : Nat
deriving DecidableEq

/-- Embedding of `Tool.Invoke` of `bigquery-data-profile` (bigquerydataprofile.go
lines 146-234): build the hardcoded request, call the client factory
(error return discarded into `_`), run the client-authorization step,
issue `CreateDataScan` once and `op.Wait` once, wrapping either failure
into the same project-only message (the underlying error is printed,
not propagated). -/
def Invoke (src : Source) (env : Env) (_p : ParamValues) :
    Except String DataScan × Trace :=
  let req := hardcodedRequest
  match authStep src env.parseBearer with
  | Except.error e =>
    (Except.error e, { factoryCalled := true, createCalls := [], waitCalls := 0 })
  | Except.ok client =>
    match env.createDataScan with
    | Except.error _ =>
      (Except.error ("failed to create data scan for project " ++ goQuote src.bigQueryProject),
       { factoryCalled := true, createCalls := [(client, req)], waitCalls := 0 })
    | Except.ok _ =>
      match env.opWait with
      | Except.error _ =>
        (Except.error ("failed to create data scan for project " ++ goQuote src.bigQueryProject),
         { factoryCalled := true, createCalls := [(client, req)], waitCalls := 1 })
      | Except.ok resp =>
        (Except.ok resp,
         { factoryCalled := true, createCalls := [(client, req)], waitCalls := 1 })

/-- The `typeMap` of bigquerydataprofile.go lines 127-135, as the total
lookup Go's map indexing performs (missing key yields the zero value ""). -/
def typeMap (key : String) : String :=
  if key = "bigquery-connection" then "CONNECTION"
  else if key = "bigquery-data-policy" then "POLICY"
  else if key = "bigquery-dataset" then "DATASET"
  else if key = "bigquery-model" then "MODEL"
  else if key = "bigquery-routine" then "ROUTINE"
  else if key = "bigquery-table" then "TABLE"
  else if key = "bigquery-view" then "VIEW"
  else ""

/-- The suffix of `cs` strictly after its last `'/'`, or `none` when no
`'/'` occurs: the char-list reading of
`strings.LastIndex(s, "/")` followed by `s[lastIndex+1:]`. -/
def afterLastSlash : List Char → Option (List Char)
  | [] => none
  | c :: rest =>
    match afterLastSlash rest with
    | some t => some t
    | none => if c = '/' then some rest else none

/-- Embedding of `ExtractType` of bigquerydataprofile.go lines 137-144: return the
input unchanged when it has no "/", otherwise look the segment after
the last "/" up in `typeMap`. -/
def ExtractType (resourceString : String) : String :=
  match afterLastSlash resourceString.toList with
  | none => resourceString
  | some t => typeMap (String.mk t)

end BigqueryDataProfile

/-! Concrete sample configurations, environments and parameter values
used to run the embedded tools on closed inputs. -/

/-- A sample data scan resource, indexed so distinct scans differ. -/
def sampleScan (n : Nat) : DataScan :=
  { name := "projects/p/locations/l/dataScans/scan" ++ toString n
    displayName := "Scan " ++ toString n
    uid := "uid" ++ toString n
    description := "sample"
    data := some { resource := "//bigquery.googleapis.com/projects/p/datasets/d/tables/t" }
    dataProfileResult := some { payload := "profile" }
    state := "ACTIVE"
    createTime := Int.ofNat n }

/-- A source with client authorization off. -/
def srcOff : Source :=
  { bigQueryProject := "demo-project"
    useClientAuthorization := false
    clientFromSource := 3
    clientCreator := fun _ => Except.ok 9
    factoryErr := none }

/-- A source with client authorization on; its creator accepts exactly
the token string tok-good. -/
def srcAuth : Source :=
  { bigQueryProject := "demo-project"
    useClientAuthorization := true
    clientFromSource := 3
    clientCreator := fun tok =>
      if tok = "tok-good" then Except.ok 9 else Except.error ("creator refused")
    factoryErr := none }

/-- Valid parameters for the get-data-scan-info tool. -/
def pGet : BigqueryGetDataScanInfo.Params :=
  { name := "projects/p/locations/l/dataScans/scan1" }

/-- Empty-name parameters for the get-data-scan-info tool. -/
def pGetEmpty : BigqueryGetDataScanInfo.Params := { name := "" }

/-- Get-tool environment: token parses, the scan is returned. -/
def envGetOk : BigqueryGetDataScanInfo.Env :=
  { parseBearer := Except.ok ("tok-good")
    getDataScan := Except.ok (sampleScan 1) }

/-- Get-tool environment: token parses, `GetDataScan` fails with a
status-carrying error. -/
def envGetErr : BigqueryGetDataScanInfo.Env :=
  { parseBearer := Except.ok ("tok-good")
    getDataScan := Except.error { fromStatus := true, message := "scan not found" } }

/-- Get-tool environment: bearer-token parsing fails. -/
def envGetParseErr : BigqueryGetDataScanInfo.Env :=
  { parseBearer := Except.error ("no bearer header")
    getDataScan := Except.ok (sampleScan 1) }

/-- Get-tool environment: token parses to a value the creator refuses. -/
def envGetBadTok : BigqueryGetDataScanInfo.Env :=
  { parseBearer := Except.ok ("tok-bad")
    getDataScan := Except.ok (sampleScan 1) }

/-- Seven sample scans: more than the default page size of 5. -/
def scansSeven : List DataScan := (List.range 7).map sampleScan

/-- Valid parameters for the list tool, with the default empty project,
empty state and default page size 5. -/
def pList7 : BigqueryListDataScans.Params :=
  { location := "us-central1", project := "", state := "", pageSize := 5 }

/-- List-tool parameters with an empty location. -/
def pListNoLoc : BigqueryListDataScans.Params :=
  { location := "", project := "", state := "ACTIVE", pageSize := 5 }

/-- List-tool environment yielding seven scans and then Done. -/
def envList7 : BigqueryListDataScans.Env :=
  { parseBearer := Except.ok ("tok-good")
    scanStream := scansSeven.map Except.ok }

/-- List-tool environment whose iterator fails at the third `Next`. -/
def envListErr : BigqueryListDataScans.Env :=
  { parseBearer := Except.ok ("tok-good")
    scanStream :=
      ([sampleScan 1, sampleScan 2].map Except.ok) ++
        Except.error ("backend unavailable") :: [Except.ok (sampleScan 3)] }

/-- Profile-tool environment: everything succeeds. -/
def envProfOk : BigqueryDataProfile.Env :=
  { parseBearer := Except.ok ("tok-good")
    createDataScan := Except.ok 1
    opWait := Except.ok (sampleScan 9) }

/-- Profile-tool environment: `CreateDataScan` fails. -/
def envProfCreateErr : BigqueryDataProfile.Env :=
  { parseBearer := Except.ok ("tok-good")
    createDataScan := Except.error ("quota exceeded")
    opWait := Except.ok (sampleScan 9) }

/-- Profile-tool environment: the operation's `Wait` fails. -/
def envProfWaitErr : BigqueryDataProfile.Env :=
  { parseBearer := Except.ok ("tok-good")
    createDataScan := Except.ok 1
    opWait := Except.error ("operation failed") }

/-! Helper lemmas about the shared client-selection step. -/

/-- With client authorization off, the source-provided client is kept,
whatever the access token parses to. -/
lemma authStep_off (src : Source) (h : src.useClientAuthorization = false)
    (pb : Except String String) :
    authStep src pb = Except.ok src.clientFromSource := by
  simp [authStep, h]

/-- With client authorization on, a bearer-token parse failure aborts
the step with the wrapped parse error. -/
lemma authStep_parse_error (src : Source) (e : String)
    (h : src.useClientAuthorization = true) :
    authStep src (Except.error e) =
      Except.error ("error parsing access token: " ++ e) := by
  simp [authStep, h]

/-- With client authorization on, a client-creator failure aborts the
step with the wrapped creation error. -/
lemma authStep_creator_error (src : Source) (tok e : String)
    (h : src.useClientAuthorization = true)
    (hc : src.clientCreator tok = Except.error e) :
    authStep src (Except.ok tok) =
      Except.error ("error creating client from OAuth access token: " ++ e) := by
  simp [authStep, h, hc]

/-- With client authorization on and both steps succeeding, the
recreated client is selected. -/
lemma authStep_recreated (src : Source) (tok : String) (c : Nat)
    (h : src.useClientAuthorization = true)
    (hc : src.clientCreator tok = Except.ok c) :
    authStep src (Except.ok tok) = Except.ok c := by
  simp [authStep, h, hc]

namespace BigqueryListDataScans

/-- Draining an error-free iterator yields every scan's item, appended
in yield order after the accumulator, with one `Next` call per scan
plus the final Done-yielding call. -/
lemma drainLoop_ok (scans : List DataScan) (acc : List DataScanItem) :
    drainLoop (scans.map Except.ok) acc =
      (Except.ok (acc ++ scans.map toItem), scans.length + 1) := by
  induction scans generalizing acc with
  | nil => simp [drainLoop]
  | cons s rest ih =>
    simp [drainLoop, ih (acc ++ [toItem s])]

/-- Draining an iterator that fails after `pre` scans aborts with the
wrapped iterator error right at the failing `Next` call, dropping the
items accumulated so far. -/
lemma drainLoop_error (pre : List DataScan) (e : String)
    (rest : List (Except String DataScan)) (acc : List DataScanItem) :
    drainLoop (pre.map Except.ok ++ Except.error e :: rest) acc =
      (Except.error ("iterator.Next: " ++ e), pre.length + 1) := by
  induction pre generalizing acc with
  | nil => simp [drainLoop]
  | cons s prerest ih =>
    simp [drainLoop, ih (acc ++ [toItem s])]

end BigqueryListDataScans

namespace BigqueryDataProfile

/-- A char list without `'/'` has no suffix after a last slash. -/
lemma afterLastSlash_of_not_mem (cs : List Char) (h : '/' ∉ cs) :
    afterLastSlash cs = none := by
  induction cs with
  | nil => rfl
  | cons c rest ih =>
    have hc : ¬ c = '/' := fun hc => h (by simp [hc])
    have hrest : '/' ∉ rest := fun hr => h (List.mem_cons_of_mem _ hr)
    simp [afterLastSlash, ih hrest, hc]

/-- When the final segment `bs` is slash-free, the suffix after the
last slash of `as ++ '/' :: bs` is exactly `bs`. -/
lemma afterLastSlash_append (as bs : List Char) (h : '/' ∉ bs) :
    afterLastSlash (as ++ '/' :: bs) = some bs := by
  induction as with
  | nil => simp [afterLastSlash, afterLastSlash_of_not_mem bs h]
  | cons a arest ih =>
    simp [afterLastSlash, ih]

end BigqueryDataProfile

/-! Request-determination lemmas: every remote request a run issues is
the one built from the validated parameters and the source
configuration alone. -/

/-- Any `GetDataScan` request issued by the get tool carries the `name`
parameter and the FULL view. -/
lemma get_request_of_mem (src : Source) (env : BigqueryGetDataScanInfo.Env)
    (p : BigqueryGetDataScanInfo.Params) (cl : Nat)
    (r : BigqueryGetDataScanInfo.GetDataScanRequest)
    (h : (cl, r) ∈ (BigqueryGetDataScanInfo.Invoke src env p).2.apiCalls) :
    r = { name := p.name, view := BigqueryGetDataScanInfo.DataScanView.full } := by
  unfold BigqueryGetDataScanInfo.Invoke at h
  by_cases hn : p.name = ""
  · simp [hn] at h
  · simp only [hn, ite_false, if_neg] at h
    cases hA : authStep src env.parseBearer with
    | error e => rw [hA] at h; simp at h
    | ok c =>
      rw [hA] at h
      cases hG : env.getDataScan with
      | error e => rw [hG] at h; simp at h; exact h.2
      | ok resp => rw [hG] at h; simp at h; exact h.2

/-- Any `ListDataScans` request issued by the list tool is
`buildRequest` of the parameters and the source. -/
lemma list_request_of_mem (src : Source) (env : BigqueryListDataScans.Env)
    (p : BigqueryListDataScans.Params) (cl : Nat)
    (r : BigqueryListDataScans.ListDataScansRequest)
    (h : (cl, r) ∈ (BigqueryListDataScans.Invoke src env p).2.apiCalls) :
    r = BigqueryListDataScans.buildRequest src p := by
  unfold BigqueryListDataScans.Invoke at h
  by_cases hl : p.location = ""
  · simp [hl] at h
  · simp only [hl, ite_false, if_neg] at h
    cases hA : authStep src env.parseBearer with
    | error e => rw [hA] at h; simp at h
    | ok c =>
      rw [hA] at h
      rcases hD : BigqueryListDataScans.drainLoop env.scanStream [] with ⟨res, n⟩
      rw [hD] at h
      cases res with
      | error e => simp at h; exact h.2
      | ok items => simp at h; exact h.2

/-- Any `CreateDataScan` request issued by the data-profile tool is the
hardcoded one. -/
lemma profile_request_of_mem (src : Source) (env : BigqueryDataProfile.Env)
    (p : BigqueryDataProfile.ParamValues) (cl : Nat)
    (r : BigqueryDataProfile.CreateDataScanRequest)
    (h : (cl, r) ∈ (BigqueryDataProfile.Invoke src env p).2.createCalls) :
    r = BigqueryDataProfile.hardcodedRequest := by
  unfold BigqueryDataProfile.Invoke at h
  cases hA : authStep src env.parseBearer with
  | error e => rw [hA] at h; simp at h
  | ok c =>
    rw [hA] at h
    cases hC : env.createDataScan with
    | error e => rw [hC] at h; simp at h; exact h.2
    | ok op =>
      rw [hC] at h
      cases hW : env.opWait with
      | error e => rw [hW] at h; simp at h; exact h.2
      | ok resp => rw [hW] at h; simp at h; exact h.2

/-! Claim theorems. -/

/-- C1: contrary to the claim, the bigquery-data-profile tool's
`CreateDataScanRequest` is not a function of the caller-supplied
parameters: `Invoke` returns the same result and trace for any two
parameter values, every `CreateDataScan` call a run issues carries the
one request literal written in the source, a concrete run sends exactly
that literal, and the literal's parent, scan id, data source resource
and sampling percent are the constants of bigquerydataprofile.go lines
172-202. -/
theorem C1_profile_request_hardcoded :
    (∀ (src : Source) (env : BigqueryDataProfile.Env)
       (p q : BigqueryDataProfile.ParamValues),
       BigqueryDataProfile.Invoke src env p = BigqueryDataProfile.Invoke src env q)
    ∧ (∀ (src : Source) (env : BigqueryDataProfile.Env)
        (p : BigqueryDataProfile.ParamValues),
        (BigqueryDataProfile.Invoke src env p).2.createCalls.map Prod.snd = []
        ∨ (BigqueryDataProfile.Invoke src env p).2.createCalls.map Prod.snd =
            [BigqueryDataProfile.hardcodedRequest])
    ∧ (BigqueryDataProfile.Invoke srcOff envProfOk []).2.createCalls =
        [(3, BigqueryDataProfile.hardcodedRequest)]
    ∧ BigqueryDataProfile.hardcodedRequest.parent =
        "projects/autopush-cmek-test-project-1/locations/us-west1"
    ∧ BigqueryDataProfile.hardcodedRequest.dataScanId = "testscan1"
    ∧ BigqueryDataProfile.hardcodedRequest.dataScan.data.resource =
        "//bigquery.googleapis.com/projects/autopush-cmek-test-project-1/datasets/TestDSUsWest1/tables/TestTabUsWest1"
    ∧ BigqueryDataProfile.hardcodedRequest.dataScan.profileSpec.samplingPercent = 10 := by
  refine ⟨fun src env p q => rfl, ?_, rfl, rfl, rfl, rfl, rfl⟩
  intro src env p
  unfold BigqueryDataProfile.Invoke
  cases hA : authStep src env.parseBearer with
  | error e => simp
  | ok c =>
    cases hC : env.createDataScan with
    | error e => simp
    | ok op =>
      cases hW : env.opWait with
      | error e => simp
      | ok resp => simp

/-- C2: contrary to the claim, no `Invoke` forwards an error returned
by the source's `MakeDataplexDataScanClient` factory: each tool's run
is unchanged when that error return is replaced (the code binds it to
the blank identifier), and on a source whose factory reports an error
the get tool still issues its remote call and returns the remote
answer instead of the factory error. -/
theorem C2_factory_error_discarded :
    (∀ (src : Source) (e : String) (env : BigqueryGetDataScanInfo.Env)
       (p : BigqueryGetDataScanInfo.Params),
       BigqueryGetDataScanInfo.Invoke { src with factoryErr := some e } env p =
         BigqueryGetDataScanInfo.Invoke { src with factoryErr := none } env p)
    ∧ (∀ (src : Source) (e : String) (env : BigqueryListDataScans.Env)
        (p : BigqueryListDataScans.Params),
        BigqueryListDataScans.Invoke { src with factoryErr := some e } env p =
          BigqueryListDataScans.Invoke { src with factoryErr := none } env p)
    ∧ (∀ (src : Source) (e : String) (env : BigqueryDataProfile.Env)
        (p : BigqueryDataProfile.ParamValues),
        BigqueryDataProfile.Invoke { src with factoryErr := some e } env p =
          BigqueryDataProfile.Invoke { src with factoryErr := none } env p)
    ∧ (BigqueryGetDataScanInfo.Invoke
          { srcOff with factoryErr := some ("factory creation failed") } envGetOk pGet).1 =
        Except.ok (BigqueryGetDataScanInfo.mkResponse (sampleScan 1))
    ∧ (BigqueryGetDataScanInfo.Invoke
          { srcOff with factoryErr := some ("factory creation failed") } envGetOk pGet).2.apiCalls =
        [(3, { name := pGet.name, view := BigqueryGetDataScanInfo.DataScanView.full })] := by
  exact ⟨fun src e env p => rfl, fun src e env p => rfl, fun src e env p => rfl, rfl, rfl⟩

/-- C3: the list tool drains pagination: whenever the iterator yields a
list of scans and then Done, the response holds exactly one item per
yielded scan, in yield order, whatever the `pageSize` parameter was —
the response length is the number of yielded scans. -/
theorem C3_list_drains_all_pages :
    ∀ (src : Source) (env : BigqueryListDataScans.Env)
      (p : BigqueryListDataScans.Params) (scans : List DataScan) (c : Nat),
      p.location ≠ "" →
      authStep src env.parseBearer = Except.ok c →
      env.scanStream = scans.map Except.ok →
      (BigqueryListDataScans.Invoke src env p).1 =
        Except.ok { dataScans := scans.map BigqueryListDataScans.toItem }
      ∧ (scans.map BigqueryListDataScans.toItem).length = scans.length := by
  intro src env p scans c hloc hA hs
  refine ⟨?_, by simp⟩
  simp [BigqueryListDataScans.Invoke, hloc, hA, hs, BigqueryListDataScans.drainLoop_ok]

/-- Witness for C3: seven scans are all returned although the page-size
parameter is 5. -/
theorem C3_list_drains_all_pages_witness :
    pList7.location ≠ ""
    ∧ pList7.pageSize = 5
    ∧ scansSeven.length = 7
    ∧ (BigqueryListDataScans.Invoke srcOff envList7 pList7).1 =
        Except.ok { dataScans := scansSeven.map BigqueryListDataScans.toItem }
    ∧ (scansSeven.map BigqueryListDataScans.toItem).length = 7 := by
  have h := C3_list_drains_all_pages srcOff envList7 pList7 scansSeven 3
    (by decide) rfl rfl
  exact ⟨by decide, rfl, by decide, h.1, by decide⟩

/-- C5: on the first remote failure every tool returns one wrapped
error at once: the get tool has issued exactly one `GetDataScan` call
and wraps its error; the profile tool wraps a `CreateDataScan` failure
after exactly one create call and no `Wait`, and a `Wait` failure after
one create and one `Wait` call; the list tool stops at the failing
`Next` call (no call after it) and its error result carries no partial
item list. -/
theorem C5_one_shot_error_wrapping :
    (∀ (src : Source) (env : BigqueryGetDataScanInfo.Env)
       (p : BigqueryGetDataScanInfo.Params) (c : Nat) (e : RpcError),
       p.name ≠ "" →
       authStep src env.parseBearer = Except.ok c →
       env.getDataScan = Except.error e →
       (BigqueryGetDataScanInfo.Invoke src env p).1 =
         Except.error (BigqueryGetDataScanInfo.wrapGetError src.bigQueryProject e)
       ∧ (BigqueryGetDataScanInfo.Invoke src env p).2.apiCalls =
           [(c, { name := p.name, view := BigqueryGetDataScanInfo.DataScanView.full })])
    ∧ (∀ (src : Source) (env : BigqueryDataProfile.Env)
        (p : BigqueryDataProfile.ParamValues) (c : Nat) (e : String),
        authStep src env.parseBearer = Except.ok c →
        env.createDataScan = Except.error e →
        (BigqueryDataProfile.Invoke src env p).1 =
          Except.error ("failed to create data scan for project " ++ goQuote src.bigQueryProject)
        ∧ (BigqueryDataProfile.Invoke src env p).2.createCalls =
            [(c, BigqueryDataProfile.hardcodedRequest)]
        ∧ (BigqueryDataProfile.Invoke src env p).2.waitCalls = 0)
    ∧ (∀ (src : Source) (env : BigqueryDataProfile.Env)
        (p : BigqueryDataProfile.ParamValues) (c op : Nat) (e : String),
        authStep src env.parseBearer = Except.ok c →
        env.createDataScan = Except.ok op →
        env.opWait = Except.error e →
        (BigqueryDataProfile.Invoke src env p).1 =
          Except.error ("failed to create data scan for project " ++ goQuote src.bigQueryProject)
        ∧ (BigqueryDataProfile.Invoke src env p).2.createCalls =
            [(c, BigqueryDataProfile.hardcodedRequest)]
        ∧ (BigqueryDataProfile.Invoke src env p).2.waitCalls = 1)
    ∧ (∀ (src : Source) (env : BigqueryListDataScans.Env)
        (p : BigqueryListDataScans.Params) (c : Nat) (pre : List DataScan)
        (e : String) (rest : List (Except String DataScan)),
        p.location ≠ "" →
        authStep src env.parseBearer = Except.ok c →
        env.scanStream = pre.map Except.ok ++ Except.error e :: rest →
        (BigqueryListDataScans.Invoke src env p).1 =
          Except.error ("iterator.Next: " ++ e)
        ∧ (BigqueryListDataScans.Invoke src env p).2.nextCalls = pre.length + 1) := by
  refine ⟨?_, ?_, ?_, ?_⟩
  · intro src env p c e hn hA hG
    simp [BigqueryGetDataScanInfo.Invoke, hn, hA, hG]
  · intro src env p c e hA hC
    simp [BigqueryDataProfile.Invoke, hA, hC]
  · intro src env p c op e hA hC hW
    simp [BigqueryDataProfile.Invoke, hA, hC, hW]
  · intro src env p c pre e rest hloc hA hs
    simp [BigqueryListDataScans.Invoke, hloc, hA, hs,
      BigqueryListDataScans.drainLoop_error]

/-- Witness for C5: a failing `GetDataScan`, a failing `CreateDataScan`
and an iterator failing at its third `Next`, on concrete inputs. -/
theorem C5_one_shot_error_wrapping_witness :
    ((BigqueryGetDataScanInfo.Invoke srcOff envGetErr pGet).1 =
        Except.error (BigqueryGetDataScanInfo.wrapGetError srcOff.bigQueryProject
          { fromStatus := true, message := "scan not found" })
      ∧ (BigqueryGetDataScanInfo.Invoke srcOff envGetErr pGet).2.apiCalls =
          [(3, { name := pGet.name, view := BigqueryGetDataScanInfo.DataScanView.full })])
    ∧ ((BigqueryDataProfile.Invoke srcOff envProfCreateErr []).1 =
        Except.error ("failed to create data scan for project " ++ goQuote srcOff.bigQueryProject)
      ∧ (BigqueryDataProfile.Invoke srcOff envProfCreateErr []).2.waitCalls = 0)
    ∧ ((BigqueryListDataScans.Invoke srcOff envListErr pList7).1 =
        Except.error ("iterator.Next: " ++ "backend unavailable")
      ∧ (BigqueryListDataScans.Invoke srcOff envListErr pList7).2.nextCalls =
          [sampleScan 1, sampleScan 2].length + 1) := by
  have hg := C5_one_shot_error_wrapping.1 srcOff envGetErr pGet 3
    { fromStatus := true, message := "scan not found" } (by decide) rfl rfl
  have hp := C5_one_shot_error_wrapping.2.1 srcOff envProfCreateErr [] 3
    ("quota exceeded") rfl rfl
  have hl := C5_one_shot_error_wrapping.2.2.2 srcOff envListErr pList7 3
    [sampleScan 1, sampleScan 2] ("backend unavailable") [Except.ok (sampleScan 3)]
    (by decide) rfl rfl
  exact ⟨⟨hg.1, hg.2⟩, ⟨hp.1, hp.2.2⟩, ⟨hl.1, hl.2⟩⟩

/-- C6: the get tool's successful result is exactly the four-field
projection of the `GetDataScan` response — name, display name, the
data source's resource and the data profile result — and two responses
agreeing on those four projections produce the same result object. -/
theorem C6_get_response_projection :
    (∀ (src : Source) (env : BigqueryGetDataScanInfo.Env)
       (p : BigqueryGetDataScanInfo.Params) (scan : DataScan) (c : Nat),
       p.name ≠ "" →
       authStep src env.parseBearer = Except.ok c →
       env.getDataScan = Except.ok scan →
       (BigqueryGetDataScanInfo.Invoke src env p).1 =
         Except.ok { dataScanName := scan.name
                     displayName := scan.displayName
                     dataSource := scan.getDataResource
                     result := scan.dataProfileResult })
    ∧ (∀ s t : DataScan, s.name = t.name → s.displayName = t.displayName →
        s.getDataResource = t.getDataResource →
        s.dataProfileResult = t.dataProfileResult →
        BigqueryGetDataScanInfo.mkResponse s = BigqueryGetDataScanInfo.mkResponse t) := by
  constructor
  · intro src env p scan c hn hA hG
    simp [BigqueryGetDataScanInfo.Invoke, hn, hA, hG, BigqueryGetDataScanInfo.mkResponse]
  · intro s t h1 h2 h3 h4
    simp [BigqueryGetDataScanInfo.mkResponse, h1, h2, h3, h4]

/-- Witness for C6 on a concrete successful run. -/
theorem C6_get_response_projection_witness :
    pGet.name ≠ ""
    ∧ envGetOk.getDataScan = Except.ok (sampleScan 1)
    ∧ (BigqueryGetDataScanInfo.Invoke srcOff envGetOk pGet).1 =
        Except.ok { dataScanName := (sampleScan 1).name
                    displayName := (sampleScan 1).displayName
                    dataSource := (sampleScan 1).getDataResource
                    result := (sampleScan 1).dataProfileResult } := by
  refine ⟨by decide, rfl, ?_⟩
  exact C6_get_response_projection.1 srcOff envGetOk pGet (sampleScan 1) 3
    (by decide) rfl rfl

/-- C7: request construction is deterministic for every tool: two runs
with the same parameter values and the same source configuration — the
token outcome and the remote answers may differ arbitrarily — issue
equal remote requests. -/
theorem C7_request_construction_deterministic :
    (∀ (src : Source) (p : BigqueryGetDataScanInfo.Params)
       (env₁ env₂ : BigqueryGetDataScanInfo.Env) (c₁ c₂ : Nat)
       (r₁ r₂ : BigqueryGetDataScanInfo.GetDataScanRequest),
       (c₁, r₁) ∈ (BigqueryGetDataScanInfo.Invoke src env₁ p).2.apiCalls →
       (c₂, r₂) ∈ (BigqueryGetDataScanInfo.Invoke src env₂ p).2.apiCalls →
       r₁ = r₂)
    ∧ (∀ (src : Source) (p : BigqueryListDataScans.Params)
        (env₁ env₂ : BigqueryListDataScans.Env) (c₁ c₂ : Nat)
        (r₁ r₂ : BigqueryListDataScans.ListDataScansRequest),
        (c₁, r₁) ∈ (BigqueryListDataScans.Invoke src env₁ p).2.apiCalls →
        (c₂, r₂) ∈ (BigqueryListDataScans.Invoke src env₂ p).2.apiCalls →
        r₁ = r₂)
    ∧ (∀ (src : Source) (p : BigqueryDataProfile.ParamValues)
        (env₁ env₂ : BigqueryDataProfile.Env) (c₁ c₂ : Nat)
        (r₁ r₂ : BigqueryDataProfile.CreateDataScanRequest),
        (c₁, r₁) ∈ (BigqueryDataProfile.Invoke src env₁ p).2.createCalls →
        (c₂, r₂) ∈ (BigqueryDataProfile.Invoke src env₂ p).2.createCalls →
        r₁ = r₂) := by
  refine ⟨?_, ?_, ?_⟩
  · intro src p env₁ env₂ c₁ c₂ r₁ r₂ h₁ h₂
    rw [get_request_of_mem src env₁ p c₁ r₁ h₁, get_request_of_mem src env₂ p c₂ r₂ h₂]
  · intro src p env₁ env₂ c₁ c₂ r₁ r₂ h₁ h₂
    rw [list_request_of_mem src env₁ p c₁ r₁ h₁, list_request_of_mem src env₂ p c₂ r₂ h₂]
  · intro src p env₁ env₂ c₁ c₂ r₁ r₂ h₁ h₂
    rw [profile_request_of_mem src env₁ p c₁ r₁ h₁, profile_request_of_mem src env₂ p c₂ r₂ h₂]

/-- Witness for C7: two get-tool runs against different remote
behaviours issue the same request. -/
theorem C7_request_construction_deterministic_witness :
    ((3, ({ name := pGet.name, view := BigqueryGetDataScanInfo.DataScanView.full } :
        BigqueryGetDataScanInfo.GetDataScanRequest)) ∈
        (BigqueryGetDataScanInfo.Invoke srcOff envGetOk pGet).2.apiCalls)
    ∧ ((3, ({ name := pGet.name, view := BigqueryGetDataScanInfo.DataScanView.full } :
        BigqueryGetDataScanInfo.GetDataScanRequest)) ∈
        (BigqueryGetDataScanInfo.Invoke srcOff envGetErr pGet).2.apiCalls)
    ∧ ({ name := pGet.name, view := BigqueryGetDataScanInfo.DataScanView.full } :
        BigqueryGetDataScanInfo.GetDataScanRequest) =
      { name := pGet.name, view := BigqueryGetDataScanInfo.DataScanView.full } := by
  have h₁ : (3, ({ name := pGet.name, view := BigqueryGetDataScanInfo.DataScanView.full } :
      BigqueryGetDataScanInfo.GetDataScanRequest)) ∈
      (BigqueryGetDataScanInfo.Invoke srcOff envGetOk pGet).2.apiCalls := by decide
  have h₂ : (3, ({ name := pGet.name, view := BigqueryGetDataScanInfo.DataScanView.full } :
      BigqueryGetDataScanInfo.GetDataScanRequest)) ∈
      (BigqueryGetDataScanInfo.Invoke srcOff envGetErr pGet).2.apiCalls := by decide
  exact ⟨h₁, h₂,
    C7_request_construction_deterministic.1 srcOff pGet envGetOk envGetErr 3 3 _ _ h₁ h₂⟩

/-- C8: `ExtractType` is total on strings and splits on the last "/": a
slash-free input is returned verbatim (without consulting `typeMap`),
an input with a slash maps the segment after its last slash through
`typeMap`, `typeMap` is "" outside the seven mapped bigquery-* keys,
and concretely bigquery-table maps to itself while x/bigquery-table
maps to TABLE. -/
theorem C8_ExtractType_last_slash_split :
    (∀ s : String, '/' ∉ s.toList → BigqueryDataProfile.ExtractType s = s)
    ∧ (∀ (a : String) (bs : List Char), '/' ∉ bs →
        BigqueryDataProfile.ExtractType (String.mk (a.toList ++ '/' :: bs)) =
          BigqueryDataProfile.typeMap (String.mk bs))
    ∧ (∀ key : String,
        key ≠ "bigquery-connection" → key ≠ "bigquery-data-policy" →
        key ≠ "bigquery-dataset" → key ≠ "bigquery-model" →
        key ≠ "bigquery-routine" → key ≠ "bigquery-table" →
        key ≠ "bigquery-view" → BigqueryDataProfile.typeMap key = "")
    ∧ BigqueryDataProfile.ExtractType ("bigquery-table") = "bigquery-table"
    ∧ BigqueryDataProfile.ExtractType ("x/bigquery-table") = "TABLE" := by
  refine ⟨?_, ?_, ?_, by decide, by decide⟩
  · intro s h
    unfold BigqueryDataProfile.ExtractType
    rw [BigqueryDataProfile.afterLastSlash_of_not_mem _ h]
  · intro a bs h
    unfold BigqueryDataProfile.ExtractType
    have ht : (String.mk (a.toList ++ '/' :: bs)).toList = a.toList ++ '/' :: bs := rfl
    rw [ht, BigqueryDataProfile.afterLastSlash_append _ _ h]
  · intro key h1 h2 h3 h4 h5 h6 h7
    simp [BigqueryDataProfile.typeMap, h1, h2, h3, h4, h5, h6, h7]

/-- Witness for C8 at concrete strings. -/
theorem C8_ExtractType_last_slash_split_witness :
    ('/' ∉ ("bigquery-table" : String).toList
      ∧ BigqueryDataProfile.ExtractType ("bigquery-table") = "bigquery-table")
    ∧ BigqueryDataProfile.ExtractType
        (String.mk (("x" : String).toList ++ '/' :: ("bigquery-table" : String).toList)) =
      BigqueryDataProfile.typeMap (String.mk ("bigquery-table" : String).toList)
    ∧ BigqueryDataProfile.typeMap ("resource") = "" := by
  refine ⟨⟨by decide, ?_⟩, ?_, ?_⟩
  · exact C8_ExtractType_last_slash_split.1 ("bigquery-table") (by decide)
  · exact C8_ExtractType_last_slash_split.2.1 ("x")
      (("bigquery-table" : String).toList) (by decide)
  · exact C8_ExtractType_last_slash_split.2.2.1 ("resource") (by decide) (by decide)
      (by decide) (by decide) (by decide) (by decide) (by decide)

/-- C9: an empty `name` parameter makes the get tool fail with its
name-required error before constructing a client or issuing any remote
call; conversely a run that issued a remote call had a non-empty name. -/
theorem C9_get_empty_name_rejected :
    (∀ (src : Source) (env : BigqueryGetDataScanInfo.Env)
       (p : BigqueryGetDataScanInfo.Params), p.name = "" →
       (BigqueryGetDataScanInfo.Invoke src env p).1 = Except.error ("name is required.")
       ∧ (BigqueryGetDataScanInfo.Invoke src env p).2.factoryCalled = false
       ∧ (BigqueryGetDataScanInfo.Invoke src env p).2.apiCalls = [])
    ∧ (∀ (src : Source) (env : BigqueryGetDataScanInfo.Env)
        (p : BigqueryGetDataScanInfo.Params),
        (BigqueryGetDataScanInfo.Invoke src env p).2.apiCalls ≠ [] → p.name ≠ "") := by
  constructor
  · intro src env p h
    simp [BigqueryGetDataScanInfo.Invoke, h]
  · intro src env p h hn
    apply h
    simp [BigqueryGetDataScanInfo.Invoke, hn]

/-- Witness for C9 at the empty name. -/
theorem C9_get_empty_name_rejected_witness :
    pGetEmpty.name = ""
    ∧ (BigqueryGetDataScanInfo.Invoke srcOff envGetOk pGetEmpty).1 =
        Except.error ("name is required.")
    ∧ (BigqueryGetDataScanInfo.Invoke srcOff envGetOk pGetEmpty).2.factoryCalled = false
    ∧ (BigqueryGetDataScanInfo.Invoke srcOff envGetOk pGetEmpty).2.apiCalls = [] := by
  have h := C9_get_empty_name_rejected.1 srcOff envGetOk pGetEmpty rfl
  exact ⟨rfl, h.1, h.2.1, h.2.2⟩

/-- C10: every `ListDataScans` request's parent is
projects/p/locations/location with p the project parameter when
non-empty and the source's BigQuery project otherwise; an empty
location parameter instead fails before the factory and before any
remote call. -/
theorem C10_list_project_default_location_required :
    (∀ (src : Source) (env : BigqueryListDataScans.Env)
       (p : BigqueryListDataScans.Params) (cl : Nat)
       (r : BigqueryListDataScans.ListDataScansRequest),
       (cl, r) ∈ (BigqueryListDataScans.Invoke src env p).2.apiCalls →
       r.parent = "projects/" ++
         (if p.project = "" then src.bigQueryProject else p.project) ++
         "/locations/" ++ p.location)
    ∧ (∀ (src : Source) (env : BigqueryListDataScans.Env)
        (p : BigqueryListDataScans.Params), p.location = "" →
        (BigqueryListDataScans.Invoke src env p).1 =
          Except.error ("location parameter is required")
        ∧ (BigqueryListDataScans.Invoke src env p).2.factoryCalled = false
        ∧ (BigqueryListDataScans.Invoke src env p).2.apiCalls = []
        ∧ (BigqueryListDataScans.Invoke src env p).2.nextCalls = 0) := by
  constructor
  · intro src env p cl r h
    rw [list_request_of_mem src env p cl r h]
    simp [BigqueryListDataScans.buildRequest]
  · intro src env p h
    simp [BigqueryListDataScans.Invoke, h]

/-- Witness for C10: a concrete run with the empty project parameter
(parent falls back to the source's project), and a concrete run with an
empty location (rejected before any call). -/
theorem C10_list_project_default_location_required_witness :
    ((3, BigqueryListDataScans.buildRequest srcOff pList7) ∈
        (BigqueryListDataScans.Invoke srcOff envList7 pList7).2.apiCalls
      ∧ (BigqueryListDataScans.buildRequest srcOff pList7).parent =
          "projects/" ++
            (if pList7.project = "" then srcOff.bigQueryProject else pList7.project) ++
            "/locations/" ++ pList7.location)
    ∧ (pListNoLoc.location = ""
      ∧ (BigqueryListDataScans.Invoke srcOff envList7 pListNoLoc).1 =
          Except.error ("location parameter is required")
      ∧ (BigqueryListDataScans.Invoke srcOff envList7 pListNoLoc).2.factoryCalled = false
      ∧ (BigqueryListDataScans.Invoke srcOff envList7 pListNoLoc).2.apiCalls = []
      ∧ (BigqueryListDataScans.Invoke srcOff envList7 pListNoLoc).2.nextCalls = 0) := by
  have hm : (3, BigqueryListDataScans.buildRequest srcOff pList7) ∈
      (BigqueryListDataScans.Invoke srcOff envList7 pList7).2.apiCalls := by decide
  have h2 := C10_list_project_default_location_required.2 srcOff envList7 pListNoLoc rfl
  exact ⟨⟨hm, C10_list_project_default_location_required.1 srcOff envList7 pList7 3 _ hm⟩,
    ⟨rfl, h2.1, h2.2.1, h2.2.2.1, h2.2.2.2⟩⟩

/-- C4: for every tool, with client authorization on, a bearer-token
parse failure or a per-caller client-creation failure yields the
corresponding wrapped error with no remote call, and on success every
remote call uses the recreated client; with client authorization off,
the run does not depend on the token parse outcome and every remote
call uses the source-provided client. -/
theorem C4_client_authorization_paths :
    (∀ (src : Source) (env : BigqueryGetDataScanInfo.Env)
       (p : BigqueryGetDataScanInfo.Params),
      (src.useClientAuthorization = true → p.name ≠ "" →
        (∀ e, env.parseBearer = Except.error e →
          (BigqueryGetDataScanInfo.Invoke src env p).1 =
            Except.error ("error parsing access token: " ++ e)
          ∧ (BigqueryGetDataScanInfo.Invoke src env p).2.apiCalls = [])
        ∧ (∀ tok e, env.parseBearer = Except.ok tok →
            src.clientCreator tok = Except.error e →
            (BigqueryGetDataScanInfo.Invoke src env p).1 =
              Except.error ("error creating client from OAuth access token: " ++ e)
            ∧ (BigqueryGetDataScanInfo.Invoke src env p).2.apiCalls = [])
        ∧ (∀ tok c, env.parseBearer = Except.ok tok →
            src.clientCreator tok = Except.ok c →
            (BigqueryGetDataScanInfo.Invoke src env p).2.apiCalls.map Prod.fst = [c]))
      ∧ (src.useClientAuthorization = false →
        (∀ pb, BigqueryGetDataScanInfo.Invoke src { env with parseBearer := pb } p =
            BigqueryGetDataScanInfo.Invoke src env p)
        ∧ ((BigqueryGetDataScanInfo.Invoke src env p).2.apiCalls.map Prod.fst = []
          ∨ (BigqueryGetDataScanInfo.Invoke src env p).2.apiCalls.map Prod.fst =
              [src.clientFromSource])))
    ∧ (∀ (src : Source) (env : BigqueryListDataScans.Env)
        (p : BigqueryListDataScans.Params),
      (src.useClientAuthorization = true → p.location ≠ "" →
        (∀ e, env.parseBearer = Except.error e →
          (BigqueryListDataScans.Invoke src env p).1 =
            Except.error ("error parsing access token: " ++ e)
          ∧ (BigqueryListDataScans.Invoke src env p).2.apiCalls = [])
        ∧ (∀ tok e, env.parseBearer = Except.ok tok →
            src.clientCreator tok = Except.error e →
            (BigqueryListDataScans.Invoke src env p).1 =
              Except.error ("error creating client from OAuth access token: " ++ e)
            ∧ (BigqueryListDataScans.Invoke src env p).2.apiCalls = [])
        ∧ (∀ tok c, env.parseBearer = Except.ok tok →
            src.clientCreator tok = Except.ok c →
            (BigqueryListDataScans.Invoke src env p).2.apiCalls.map Prod.fst = [c]))
      ∧ (src.useClientAuthorization = false →
        (∀ pb, BigqueryListDataScans.Invoke src { env with parseBearer := pb } p =
            BigqueryListDataScans.Invoke src env p)
        ∧ ((BigqueryListDataScans.Invoke src env p).2.apiCalls.map Prod.fst = []
          ∨ (BigqueryListDataScans.Invoke src env p).2.apiCalls.map Prod.fst =
              [src.clientFromSource])))
    ∧ (∀ (src : Source) (env : BigqueryDataProfile.Env)
        (p : BigqueryDataProfile.ParamValues),
      (src.useClientAuthorization = true →
        (∀ e, env.parseBearer = Except.error e →
          (BigqueryDataProfile.Invoke src env p).1 =
            Except.error ("error parsing access token: " ++ e)
          ∧ (BigqueryDataProfile.Invoke src env p).2.createCalls = []
          ∧ (BigqueryDataProfile.Invoke src env p).2.waitCalls = 0)
        ∧ (∀ tok e, env.parseBearer = Except.ok tok →
            src.clientCreator tok = Except.error e →
            (BigqueryDataProfile.Invoke src env p).1 =
              Except.error ("error creating client from OAuth access token: " ++ e)
            ∧ (BigqueryDataProfile.Invoke src env p).2.createCalls = []
            ∧ (BigqueryDataProfile.Invoke src env p).2.waitCalls = 0)
        ∧ (∀ tok c, env.parseBearer = Except.ok tok →
            src.clientCreator tok = Except.ok c →
            (BigqueryDataProfile.Invoke src env p).2.createCalls.map Prod.fst = [c]))
      ∧ (src.useClientAuthorization = false →
        (∀ pb, BigqueryDataProfile.Invoke src { env with parseBearer := pb } p =
            BigqueryDataProfile.Invoke src env p)
        ∧ (BigqueryDataProfile.Invoke src env p).2.createCalls.map Prod.fst =
            [src.clientFromSource])) := by
  refine ⟨?_, ?_, ?_⟩
  · intro src env p
    constructor
    · intro hauth hn
      refine ⟨?_, ?_, ?_⟩
      · intro e he
        simp [BigqueryGetDataScanInfo.Invoke, hn, he,
          authStep_parse_error src e hauth]
      · intro tok e hpb hc
        simp [BigqueryGetDataScanInfo.Invoke, hn, hpb,
          authStep_creator_error src tok e hauth hc]
      · intro tok c hpb hc
        have hA : authStep src env.parseBearer = Except.ok c := by
          rw [hpb]; exact authStep_recreated src tok c hauth hc
        cases hG : env.getDataScan with
        | error e => simp [BigqueryGetDataScanInfo.Invoke, hn, hA, hG]
        | ok resp => simp [BigqueryGetDataScanInfo.Invoke, hn, hA, hG]
    · intro hauth
      constructor
      · intro pb
        simp [BigqueryGetDataScanInfo.Invoke, authStep_off src hauth]
      · by_cases hn : p.name = ""
        · left; simp [BigqueryGetDataScanInfo.Invoke, hn]
        · right
          cases hG : env.getDataScan with
          | error e =>
            simp [BigqueryGetDataScanInfo.Invoke, hn, authStep_off src hauth, hG]
          | ok resp =>
            simp [BigqueryGetDataScanInfo.Invoke, hn, authStep_off src hauth, hG]
  · intro src env p
    constructor
    · intro hauth hloc
      refine ⟨?_, ?_, ?_⟩
      · intro e he
        simp [BigqueryListDataScans.Invoke, hloc, he,
          authStep_parse_error src e hauth]
      · intro tok e hpb hc
        simp [BigqueryListDataScans.Invoke, hloc, hpb,
          authStep_creator_error src tok e hauth hc]
      · intro tok c hpb hc
        have hA : authStep src env.parseBearer = Except.ok c := by
          rw [hpb]; exact authStep_recreated src tok c hauth hc
        rcases hD : BigqueryListDataScans.drainLoop env.scanStream [] with ⟨res, n⟩
        cases res with
        | error e => simp [BigqueryListDataScans.Invoke, hloc, hA, hD]
        | ok items => simp [BigqueryListDataScans.Invoke, hloc, hA, hD]
    · intro hauth
      constructor
      · intro pb
        simp [BigqueryListDataScans.Invoke, authStep_off src hauth]
      · by_cases hloc : p.location = ""
        · left; simp [BigqueryListDataScans.Invoke, hloc]
        · right
          rcases hD : BigqueryListDataScans.drainLoop env.scanStream [] with ⟨res, n⟩
          cases res with
          | error e =>
            simp [BigqueryListDataScans.Invoke, hloc, authStep_off src hauth, hD]
          | ok items =>
            simp [BigqueryListDataScans.Invoke, hloc, authStep_off src hauth, hD]
  · intro src env p
    constructor
    · intro hauth
      refine ⟨?_, ?_, ?_⟩
      · intro e he
        simp [BigqueryDataProfile.Invoke, he, authStep_parse_error src e hauth]
      · intro tok e hpb hc
        simp [BigqueryDataProfile.Invoke, hpb,
          authStep_creator_error src tok e hauth hc]
      · intro tok c hpb hc
        have hA : authStep src env.parseBearer = Except.ok c := by
          rw [hpb]; exact authStep_recreated src tok c hauth hc
        cases hC : env.createDataScan with
        | error e => simp [BigqueryDataProfile.Invoke, hA, hC]
        | ok op =>
          cases hW : env.opWait with
          | error e => simp [BigqueryDataProfile.Invoke, hA, hC, hW]
          | ok resp => simp [BigqueryDataProfile.Invoke, hA, hC, hW]
    · intro hauth
      constructor
      · intro pb
        simp [BigqueryDataProfile.Invoke, authStep_off src hauth]
      · cases hC : env.createDataScan with
        | error e => simp [BigqueryDataProfile.Invoke, authStep_off src hauth, hC]
        | ok op =>
          cases hW : env.opWait with
          | error e =>
            simp [BigqueryDataProfile.Invoke, authStep_off src hauth, hC, hW]
          | ok resp =>
            simp [BigqueryDataProfile.Invoke, authStep_off src hauth, hC, hW]

/-- Witness for C4: with authorization on, a parse failure and a
creator failure each abort a concrete get-tool run with no remote
call; a successful token recreates the client (id 9) used by the call;
with authorization off, replacing the token outcome leaves a concrete
run unchanged. -/
theorem C4_client_authorization_paths_witness :
    ((BigqueryGetDataScanInfo.Invoke srcAuth envGetParseErr pGet).1 =
        Except.error ("error parsing access token: " ++ "no bearer header")
      ∧ (BigqueryGetDataScanInfo.Invoke srcAuth envGetParseErr pGet).2.apiCalls = [])
    ∧ ((BigqueryGetDataScanInfo.Invoke srcAuth envGetBadTok pGet).1 =
        Except.error ("error creating client from OAuth access token: " ++ "creator refused")
      ∧ (BigqueryGetDataScanInfo.Invoke srcAuth envGetBadTok pGet).2.apiCalls = [])
    ∧ (BigqueryGetDataScanInfo.Invoke srcAuth envGetOk pGet).2.apiCalls.map Prod.fst = [9]
    ∧ BigqueryGetDataScanInfo.Invoke srcOff
        { envGetOk with parseBearer := Except.error ("ignored") } pGet =
      BigqueryGetDataScanInfo.Invoke srcOff envGetOk pGet := by
  have hg := (C4_client_authorization_paths.1 srcAuth envGetParseErr pGet).1 rfl (by decide)
  have hb := (C4_client_authorization_paths.1 srcAuth envGetBadTok pGet).1 rfl (by decide)
  have hok := (C4_client_authorization_paths.1 srcAuth envGetOk pGet).1 rfl (by decide)
  have hoff := (C4_client_authorization_paths.1 srcOff envGetOk pGet).2 rfl
  exact ⟨hg.1 ("no bearer header") rfl,
    hb.2.1 ("tok-bad") ("creator refused") rfl rfl,
    hok.2.2 ("tok-good") 9 rfl rfl,
    hoff.1 (Except.error ("ignored"))⟩

end GenaiToolbox
